import Mathlib

/-!
Verification of the HomaraSite session/connection bridge.

The definitions below are a shallow embedding of the Electron main process
in src/FirebaseAuth/main.js (mutable authState, WebSocket channel, axios
default header, connection-monitoring timer, IPC handlers) together with
the Firebase error-message table of src/MenuLAUNCH/auth.js
(HomaraAuth.getFirebaseErrorMessage).

The asynchronous parts of the process (the await point inside
authenticateUser, WebSocket open/close/error/message callbacks, the
30-second monitor timer) are modelled as labelled transitions of a
small-step relation Step on the whole bridge state; the synchronous
function bodies are pure state transformers translated line by line from
the source.  Published renderer events (webContents.send and
broadcastToAllWindows) are recorded in an event log, outbound HTTP
requests and transmitted WebSocket frames in request/frame logs.
-/

namespace Homara

/-- Truthiness of a JavaScript string-or-undefined value: undefined and the
empty string are falsy, every other string is truthy. -/
def truthyStr : Option String → Bool
  | none => false
  | some s => if s = "" then false else true

/-- JavaScript `a || b` on string-or-undefined values. -/
def jsOr (a b : Option String) : Option String :=
  if truthyStr a then a else b

/-- JavaScript `a || d` where the fallback d is a plain string. -/
def jsOrStr (a : Option String) (d : String) : String :=
  match a with
  | none => d
  | some s => if s = "" then d else s

/-- JavaScript string coercion of a string-or-undefined value, as it happens
inside a template literal. -/
def jsStr : Option String → String
  | none => "undefined"
  | some s => s

/-- Minimal JSON value type for WebSocket payloads. -/
inductive Json where
  | null
  | jbool (b : Bool)
  | jnum (n : Int)
  | jstr (s : String)
  | jarr (elems : List Json)
  | jobj (fields : List (String × Json))

mutual

/-- Model of JSON.stringify on the payloads above. -/
def Json.stringify : Json → String
  | Json.null => "null"
  | Json.jbool true => "true"
  | Json.jbool false => "false"
  | Json.jnum n => toString n
  | Json.jstr s => "\"" ++ s ++ "\""
  | Json.jarr elems => "[" ++ Json.stringifyArr elems ++ "]"
  | Json.jobj fields => "\x7b" ++ Json.stringifyObj fields ++ "\x7d"

/-- Comma-separated serialization of a JSON array body. -/
def Json.stringifyArr : List Json → String
  | [] => ""
  | [x] => Json.stringify x
  | x :: xs => Json.stringify x ++ "," ++ Json.stringifyArr xs

/-- Comma-separated serialization of a JSON object body. -/
def Json.stringifyObj : List (String × Json) → String
  | [] => ""
  | [(k, v)] => "\"" ++ k ++ "\":" ++ Json.stringify v
  | (k, v) :: xs => "\"" ++ k ++ "\":" ++ Json.stringify v ++ "," ++ Json.stringifyObj xs

end

/-- readyState of a WebSocket (CONNECTING, OPEN, CLOSING, CLOSED). -/
inductive ReadyState where
  | connecting
  | opened
  | closing
  | closed
deriving DecidableEq

/-- The main-process WebSocket handle: the userID it was opened with and its
current readyState. -/
structure WS where
  userId : String
  readyState : ReadyState
deriving DecidableEq

/-- Effect of WebSocket.close() on the readyState of a socket: a CONNECTING
or OPEN socket moves to CLOSING, a CLOSING or CLOSED one is unchanged. -/
def jsClose (w : WS) : WS :=
  match w.readyState with
  | ReadyState.connecting => { w with readyState := ReadyState.closing }
  | ReadyState.opened => { w with readyState := ReadyState.closing }
  | _ => w

/-- The user object inside a login response
(response.data.user in authenticateUser).  Every field may be absent. -/
structure UserInfo where
  userID : Option String
  username : Option String
  email : Option String
  ownedCommunities : Option (List String)
  memberCommunities : Option (List String)
deriving DecidableEq

/-- Body of the POST /api/auth/login response (response.data). -/
structure LoginResponse where
  success : Bool
  message : Option String
  token : Option String
  customToken : Option String
  user : Option UserInfo
deriving DecidableEq

/-- The userData sub-object stored inside authState on login. -/
structure UserData where
  userId : Option String
  username : Option String
  email : Option String
  ownedCommunities : List String
  memberCommunities : List String
deriving DecidableEq

/-- The mutable authState object of the main process (the SessionRecord of
the specification). -/
structure AuthState where
  isAuthenticated : Bool
  token : Option String
  userId : Option String
  username : Option String
  email : Option String
  userData : Option UserData
deriving DecidableEq

/-- The empty (logged-out) authState, as assigned at module load and in
logoutUser. -/
def initialAuthState : AuthState :=
  { isAuthenticated := false, token := none, userId := none, username := none,
    email := none, userData := none }

/-- The userDataToSend object literal built in authenticateUser, in
createMainWindow (ready-to-show) and in the get-user-data handler; all
three sites build exactly this object from authState. -/
structure UserDataToSend where
  username : String
  userId : Option String
  email : Option String
  isAuthenticated : Bool
  token : Option String
  serviceInitialized : Bool
  ownedCommunities : List String
  memberCommunities : List String
deriving DecidableEq

/-- Builds userDataToSend from the current authState. -/
def userDataToSend (a : AuthState) : UserDataToSend :=
  { username := jsOrStr a.username "Unknown",
    userId := a.userId,
    email := a.email,
    isAuthenticated := a.isAuthenticated,
    token := a.token,
    serviceInitialized := a.isAuthenticated,
    ownedCommunities := match a.userData with
      | some d => d.ownedCommunities
      | none => [],
    memberCommunities := match a.userData with
      | some d => d.memberCommunities
      | none => [] }

/-- An event published to renderer windows (webContents.send or
broadcastToAllWindows), by IPC channel name. -/
inductive Event where
  | websocketStatus (connected : Bool)
  | websocketError (error : String)
  | websocketMessage (message : Json)
  | userData (payload : UserDataToSend)
  | triggerPreload

/-- One outbound HTTP request issued through the axios instance. -/
structure HttpReq where
  method : String
  endpoint : String
deriving DecidableEq

/-- Whole state of the main process bridge: the mutable module globals plus
logs of published events, transmitted frames and issued HTTP requests. -/
structure Bridge where
  authState : AuthState
  ws : Option WS
  orphaned : List WS
  authHeader : Option String
  monitorOn : Bool
  axiosInit : Bool
  mainWindow : Bool
  pendingLogins : Nat
  events : List Event
  sentFrames : List String
  httpRequests : List HttpReq

/-- State of the bridge right after app.whenReady ran
initializeMainProcessClients: axios is initialized, everything else is
empty, no main window exists yet. -/
def initialBridge : Bridge :=
  { authState := initialAuthState, ws := none, orphaned := [],
    authHeader := none, monitorOn := false, axiosInit := true,
    mainWindow := false, pendingLogins := 0, events := [],
    sentFrames := [], httpRequests := [] }

/-- connectWebSocket(userId): closes the previous socket if one exists
(which orphans it, still closing in the background) and stores a fresh
CONNECTING socket keyed by the given userId. -/
def connectWebSocket (s : Bridge) (userId : String) : Bridge :=
  { s with
    orphaned := match s.ws with
      | some w => s.orphaned ++ [jsClose w]
      | none => s.orphaned,
    ws := some { userId := userId, readyState := ReadyState.connecting } }

/-- startConnectionMonitoring: clears any previous interval and installs the
30-second monitor timer. -/
def startConnectionMonitoring (s : Bridge) : Bridge :=
  { s with monitorOn := true }

/-- stopConnectionMonitoring: clears the monitor timer if it is set. -/
def stopConnectionMonitoring (s : Bridge) : Bridge :=
  { s with monitorOn := false }

/-- The authState object literal assigned on a successful login
(authenticateUser, lines 132 to 145 of src/FirebaseAuth/main.js).
authToken is response.data.token || response.data.customToken. -/
def loginAuthState (r : LoginResponse) (u : UserInfo) : AuthState :=
  { isAuthenticated := true,
    token := jsOr r.token r.customToken,
    userId := u.userID,
    username := u.username,
    email := u.email,
    userData := some
      { userId := u.userID,
        username := u.username,
        email := u.email,
        ownedCommunities := u.ownedCommunities.getD [],
        memberCommunities := u.memberCommunities.getD [] } }

/-- State effects of the success branch of authenticateUser: assign
authState, set the default Authorization header, connectWebSocket with the
new userID, startConnectionMonitoring, and, when a main window exists,
send the user-data and trigger-preload events to it. -/
def loginSuccessState (s : Bridge) (r : LoginResponse) (u : UserInfo) : Bridge :=
  let s1 := { s with
    authState := loginAuthState r u,
    authHeader := if s.axiosInit
      then some ("Bearer " ++ jsStr (jsOr r.token r.customToken))
      else s.authHeader }
  let s2 := startConnectionMonitoring (connectWebSocket s1 (jsStr u.userID))
  { s2 with
    events := if s2.mainWindow
      then s2.events ++ [Event.userData (userDataToSend (loginAuthState r u)),
                         Event.triggerPreload]
      else s2.events }

/-- Result value of authenticateUser: on success the source returns
success:true together with the new authState, on failure success:false and
an error message. -/
structure AuthResult where
  success : Bool
  authStateOut : Option AuthState
  error : Option String
deriving DecidableEq

/-- Continuation of authenticateUser after the awaited
POST /api/auth/login resolves with response body r.  A response with
success falsy makes the function throw, so the catch block returns a
failure built from response.data.message || "Login failed" and the state
is untouched.  A success response with no user object throws a TypeError
when userInfo.userID is read, which the catch block also turns into a
failure with the state untouched.  Otherwise the success branch applies
loginSuccessState. -/
def authenticateUser (s : Bridge) (r : LoginResponse) : Bridge × AuthResult :=
  if r.success = false then
    (s, { success := false, authStateOut := none,
          error := some (jsOrStr r.message "Login failed") })
  else
    match r.user with
    | none =>
        (s, { success := false, authStateOut := none,
              error := some "Cannot read properties of undefined (reading userID)" })
    | some u =>
        (loginSuccessState s r u,
         { success := true, authStateOut := some (loginAuthState r u), error := none })

/-- Outcome of the awaited POST /api/auth/login: either it resolved with a
response body, or the request threw (network failure, non-2xx status), in
which case axios rejects with an Error carrying a message. -/
inductive LoginOutcome where
  | resolved (r : LoginResponse)
  | thrown (message : String)

/-- The whole try/catch of authenticateUser as a function of the awaited
outcome: when the request throws, the catch block returns a failure
carrying the thrown error.message and the state is untouched; when it
resolves, the continuation authenticateUser runs. -/
def authenticateUserOutcome (s : Bridge) (o : LoginOutcome) : Bridge × AuthResult :=
  match o with
  | LoginOutcome.resolved r => authenticateUser s r
  | LoginOutcome.thrown msg =>
      (s, { success := false, authStateOut := none, error := some msg })

/-- logoutUser: stopConnectionMonitoring, close the WebSocket if present
(the handle itself is not cleared), delete the default Authorization
header, reset authState to its empty value.  No event is published
synchronously. -/
def logoutUser (s : Bridge) : Bridge :=
  { stopConnectionMonitoring s with
    ws := match s.ws with
      | some w => some (jsClose w)
      | none => none,
    authHeader := if s.axiosInit then none else s.authHeader,
    authState := initialAuthState }

/-- The condition !mainProcessWebSocket ||
mainProcessWebSocket.readyState !== WebSocket.OPEN used by the monitor
tick and by the websocket-send handler. -/
def wsNotOpenReady : Option WS → Bool
  | none => true
  | some w =>
      match w.readyState with
      | ReadyState.opened => false
      | _ => true

/-- The liveness probe issued by every monitor tick. -/
def healthCheckRequest : HttpReq :=
  { method := "get", endpoint := "/api/desktop/health" }

/-- Body of the setInterval callback installed by
startConnectionMonitoring: when authenticated, reconnect the WebSocket
keyed by the current authState.userId if the socket is absent or not
open (and the userId is truthy), then issue the health-check GET whose
failures are ignored. -/
def monitorTick (s : Bridge) : Bridge :=
  if s.authState.isAuthenticated then
    let s1 := if wsNotOpenReady s.ws then
        if truthyStr s.authState.userId then
          connectWebSocket s (jsStr s.authState.userId)
        else s
      else s
    if s1.axiosInit then
      { s1 with httpRequests := s1.httpRequests ++ [healthCheckRequest] }
    else s1
  else s

/-- Result value of the websocket-send IPC handler. -/
structure SendResult where
  success : Bool
  error : Option String
deriving DecidableEq

/-- The websocket-send IPC handler: fails with "WebSocket not connected"
when no socket exists or it is not OPEN, otherwise JSON-serializes the
message and transmits it (fire and forget, the result carries no
acknowledgement). -/
def websocketSend (s : Bridge) (message : Json) : Bridge × SendResult :=
  if wsNotOpenReady s.ws then
    (s, { success := false, error := some "WebSocket not connected" })
  else
    ({ s with sentFrames := s.sentFrames ++ [Json.stringify message] },
     { success := true, error := none })

/-- Environment outcome of one proxied HTTP request: the remote body on
2xx, or the thrown axios error (optional status, optional
response.data.message, error.message). -/
inductive ApiResp where
  | ok (data : String)
  | err (status : Option Nat) (respMessage : Option String) (message : String)

/-- Result value of the api-call IPC handler. -/
structure ApiCallResult where
  success : Bool
  data : Option String
  error : Option String
  status : Option Nat
deriving DecidableEq

/-- Model of String.prototype.toLowerCase, applied character-wise. -/
def jsToLowerCase (s : String) : String :=
  String.mk (s.data.map Char.toLower)

/-- The switch of the api-call handler accepts exactly these lowercased
method names. -/
def supportedMethod (m : String) : Bool :=
  m = "get" || m = "post" || m = "put" || m = "delete"

/-- The api-call IPC handler: rejects when axios is not initialized;
dispatches on method.toLowerCase(), issuing one HTTP request for a
supported method and building the result from the response or the caught
error; an unsupported method throws, and the catch block returns a
failure whose message names the method, with no request issued. -/
def apiCall (s : Bridge) (method endpoint : String) (resp : ApiResp) :
    Bridge × ApiCallResult :=
  if s.axiosInit = false then
    (s, { success := false, data := none,
          error := some "API client not initialized", status := none })
  else
    let m := jsToLowerCase method
    if supportedMethod m then
      ({ s with httpRequests := s.httpRequests ++ [{ method := m, endpoint := endpoint }] },
       match resp with
       | ApiResp.ok d =>
           { success := true, data := some d, error := none, status := none }
       | ApiResp.err st rm msg =>
           { success := false, data := none, error := some (jsOrStr rm msg),
             status := st })
    else
      (s, { success := false, data := none,
            error := some ("Unsupported HTTP method: " ++ method), status := none })

/-- The get-user-data IPC handler: null unless authenticated, otherwise the
userDataToSend snapshot of authState. -/
def getUserData (s : Bridge) : Option UserDataToSend :=
  if s.authState.isAuthenticated then some (userDataToSend s.authState) else none

/-- HomaraAuth.getFirebaseErrorMessage (src/MenuLAUNCH/auth.js): the fixed
table mapping known Firebase failure codes to friendly text, defaulting to
error.message || "An error occurred. Please try again". -/
structure FirebaseError where
  code : Option String
  message : Option String
deriving DecidableEq

/-- The switch on error.code of getFirebaseErrorMessage. -/
def getFirebaseErrorMessage (error : FirebaseError) : String :=
  if error.code = some "auth/email-already-in-use" then
    "An account with this email already exists"
  else if error.code = some "auth/invalid-email" then
    "Please enter a valid email address"
  else if error.code = some "auth/weak-password" then
    "Password should be at least 6 characters"
  else if error.code = some "auth/user-not-found" then
    "No account found with this email"
  else if error.code = some "auth/wrong-password" then
    "Incorrect password"
  else if error.code = some "auth/too-many-requests" then
    "Too many failed attempts. Please try again later"
  else
    jsOrStr error.message "An error occurred. Please try again"

/-- Conformance of a login response to the remote interface of the
specification: a success response carries a truthy token or customToken
and a user object with a truthy userID and a present email. -/
def wfResponseB (r : LoginResponse) : Bool :=
  !r.success ||
    (truthyStr (jsOr r.token r.customToken) &&
      match r.user with
      | none => false
      | some u => truthyStr u.userID && u.email.isSome)

/-- The POST issued by authenticateUser before it suspends. -/
def loginRequestRecord : HttpReq :=
  { method := "post", endpoint := "/api/auth/login" }

/-- Small-step transition relation of the bridge.  Caller operations
(login request, logout, websocket-send, api-call) and asynchronous
completions (login resolution against an interface-conforming response,
request throw, monitor tick, WebSocket callbacks) each give one labelled
step.  The WebSocket callbacks follow the ws library: the open callback
fires on a CONNECTING socket, the close callback fires once per socket
that is not yet CLOSED, error callbacks can fire at any time, and message
callbacks deliver frames while the socket is OPEN and also while it is
CLOSING (frames already in flight during the close handshake), since the
handlers of main.js broadcast every such event unconditionally.  The same
callbacks stay attached to sockets that connectWebSocket replaced
(orphaned); such sockets are always CLOSING or CLOSED, so they can still
fire their close, error and in-flight message callbacks. -/
inductive Step : Bridge → Bridge → Prop where
  | loginRequest (s : Bridge) (h : s.axiosInit = true) :
      Step s { s with pendingLogins := s.pendingLogins + 1,
                      httpRequests := s.httpRequests ++ [loginRequestRecord] }
  | loginRequestNoClient (s : Bridge) (h : s.axiosInit = false) :
      Step s s
  | loginResolve (s : Bridge) (r : LoginResponse) (hw : wfResponseB r = true)
      (hp : s.pendingLogins ≠ 0) :
      Step s (authenticateUser { s with pendingLogins := s.pendingLogins - 1 } r).1
  | loginThrow (s : Bridge) (msg : String) (hp : s.pendingLogins ≠ 0) :
      Step s (authenticateUserOutcome { s with pendingLogins := s.pendingLogins - 1 }
        (LoginOutcome.thrown msg)).1
  | logoutStep (s : Bridge) :
      Step s (logoutUser s)
  | tickStep (s : Bridge) (h : s.monitorOn = true) :
      Step s (monitorTick s)
  | wsOpen (s : Bridge) (w : WS) (h : s.ws = some w)
      (hr : w.readyState = ReadyState.connecting) :
      Step s { s with ws := some { w with readyState := ReadyState.opened },
                      events := s.events ++ [Event.websocketStatus true] }
  | wsClosed (s : Bridge) (w : WS) (h : s.ws = some w)
      (hr : w.readyState ≠ ReadyState.closed) :
      Step s { s with ws := some { w with readyState := ReadyState.closed },
                      events := s.events ++ [Event.websocketStatus false] }
  | wsError (s : Bridge) (w : WS) (msg : String) (h : s.ws = some w) :
      Step s { s with events := s.events ++ [Event.websocketError msg] }
  | wsMessage (s : Bridge) (w : WS) (m : Json) (h : s.ws = some w)
      (hr : w.readyState = ReadyState.opened ∨ w.readyState = ReadyState.closing) :
      Step s { s with events := s.events ++ [Event.websocketMessage m] }
  | orphanClosed (s : Bridge) (l1 l2 : List WS) (w : WS)
      (h : s.orphaned = l1 ++ w :: l2) (hr : w.readyState ≠ ReadyState.closed) :
      Step s { s with orphaned := l1 ++ { w with readyState := ReadyState.closed } :: l2,
                      events := s.events ++ [Event.websocketStatus false] }
  | orphanError (s : Bridge) (w : WS) (msg : String) (h : w ∈ s.orphaned) :
      Step s { s with events := s.events ++ [Event.websocketError msg] }
  | orphanMessage (s : Bridge) (w : WS) (m : Json) (h : w ∈ s.orphaned)
      (hr : w.readyState = ReadyState.closing) :
      Step s { s with events := s.events ++ [Event.websocketMessage m] }
  | sendStep (s : Bridge) (m : Json) :
      Step s (websocketSend s m).1
  | apiStep (s : Bridge) (method endpoint : String) (resp : ApiResp) :
      Step s (apiCall s method endpoint resp).1

/-- Reachability from the post-startup state. -/
def Reachable (s t : Bridge) : Prop :=
  Relation.ReflTransGen Step s t

/-- Invariant maintained by every step from the post-startup state: axios
stays initialized; while authenticated the token and userId are truthy and
the email present; while logged out the authState is exactly the empty
record, the monitor timer is off, the default header absent and any
remaining socket is CLOSING or CLOSED. -/
def GoodState (s : Bridge) : Prop :=
  s.axiosInit = true ∧
  (s.authState.isAuthenticated = true →
     truthyStr s.authState.token = true ∧ truthyStr s.authState.userId = true ∧
     s.authState.email ≠ none) ∧
  (s.authState.isAuthenticated = false →
     s.authState = initialAuthState ∧ s.monitorOn = false ∧ s.authHeader = none ∧
     ∀ w, s.ws = some w →
       w.readyState = ReadyState.closing ∨ w.readyState = ReadyState.closed)

lemma loginSuccessState_authState (s : Bridge) (r : LoginResponse) (u : UserInfo) :
    (loginSuccessState s r u).authState = loginAuthState r u := rfl

lemma loginSuccessState_isAuthenticated (s : Bridge) (r : LoginResponse) (u : UserInfo) :
    (loginSuccessState s r u).authState.isAuthenticated = true := rfl

lemma jsClose_idem (w : WS) : jsClose (jsClose w) = jsClose w := by
  cases w with
  | mk uid rs => cases rs <;> rfl

lemma jsClose_quiescent (w : WS) :
    (jsClose w).readyState = ReadyState.closing ∨
    (jsClose w).readyState = ReadyState.closed := by
  cases w with
  | mk uid rs => cases rs <;> simp [jsClose]

lemma truthyStr_ne_none (o : Option String) (h : truthyStr o = true) : o ≠ none := by
  cases o with
  | none => simp [truthyStr] at h
  | some s => simp

lemma goodInit : GoodState initialBridge := by
  refine ⟨rfl, fun h => ?_, fun _ => ⟨rfl, rfl, rfl, fun w hw => ?_⟩⟩
  · simp [initialBridge, initialAuthState] at h
  · simp [initialBridge] at hw

lemma monitorTick_notAuth (s : Bridge) (h : s.authState.isAuthenticated = false) :
    monitorTick s = s := by
  simp [monitorTick, h]

lemma monitorTick_auth_frame (s : Bridge) :
    (monitorTick s).authState = s.authState ∧
    (monitorTick s).axiosInit = s.axiosInit := by
  simp only [monitorTick]
  split
  · split
    · split
      · split <;> exact ⟨rfl, rfl⟩
      · split <;> exact ⟨rfl, rfl⟩
    · split <;> exact ⟨rfl, rfl⟩
  · exact ⟨rfl, rfl⟩

lemma goodStep {s t : Bridge} (hg : GoodState s) (hs : Step s t) : GoodState t := by
  obtain ⟨hax, hauth, hout⟩ := hg
  cases hs with
  | loginRequest h => exact ⟨hax, hauth, hout⟩
  | loginRequestNoClient h => exact ⟨hax, hauth, hout⟩
  | loginThrow msg hp => exact ⟨hax, hauth, hout⟩
  | logoutStep =>
      refine ⟨hax, fun h => ?_, fun _ => ⟨rfl, rfl, ?_, fun w hw => ?_⟩⟩
      · simp [logoutUser, stopConnectionMonitoring, initialAuthState] at h
      · simp [logoutUser, stopConnectionMonitoring, hax]
      · simp only [logoutUser, stopConnectionMonitoring] at hw
        cases hws : s.ws with
        | none => rw [hws] at hw; cases hw
        | some w0 =>
            rw [hws] at hw
            simp only [Option.some.injEq] at hw
            rw [← hw]
            exact jsClose_quiescent w0
  | loginResolve r hw hp =>
      by_cases hsucc : r.success = true
      · cases hu : r.user with
        | none =>
            have hred : authenticateUser { s with pendingLogins := s.pendingLogins - 1 } r =
                ({ s with pendingLogins := s.pendingLogins - 1 },
                 { success := false, authStateOut := none,
                   error := some "Cannot read properties of undefined (reading userID)" }) := by
              simp [authenticateUser, hsucc, hu]
            rw [hred]
            exact ⟨hax, hauth, hout⟩
        | some u =>
            have hw2 : truthyStr (jsOr r.token r.customToken) = true ∧
                truthyStr u.userID = true ∧ u.email.isSome = true := by
              simp [wfResponseB, hsucc, hu, Bool.and_eq_true] at hw
              exact ⟨hw.1, hw.2.1, hw.2.2⟩
            have hred : authenticateUser { s with pendingLogins := s.pendingLogins - 1 } r =
                (loginSuccessState { s with pendingLogins := s.pendingLogins - 1 } r u,
                 { success := true, authStateOut := some (loginAuthState r u),
                   error := none }) := by
              simp [authenticateUser, hsucc, hu]
            rw [hred]
            refine ⟨hax, fun _ => ⟨hw2.1, hw2.2.1,
              Option.ne_none_iff_isSome.mpr hw2.2.2⟩, fun hf => ?_⟩
            rw [loginSuccessState_isAuthenticated] at hf
            simp at hf
      · have hsf : r.success = false := by
          revert hsucc; cases r.success <;> simp
        have hred : authenticateUser { s with pendingLogins := s.pendingLogins - 1 } r =
            ({ s with pendingLogins := s.pendingLogins - 1 },
             { success := false, authStateOut := none,
               error := some (jsOrStr r.message "Login failed") }) := by
          simp [authenticateUser, hsf]
        rw [hred]
        exact ⟨hax, hauth, hout⟩
  | tickStep h =>
      by_cases ha : s.authState.isAuthenticated = true
      · obtain ⟨hfa, hfx⟩ := monitorTick_auth_frame s
        refine ⟨by rw [hfx]; exact hax, by rw [hfa]; exact hauth, fun hf => ?_⟩
        · rw [hfa, ha] at hf; cases hf
      · have ha2 : s.authState.isAuthenticated = false := by
          revert ha; cases s.authState.isAuthenticated <;> simp
        rw [monitorTick_notAuth s ha2]
        exact ⟨hax, hauth, hout⟩
  | wsOpen w h hr =>
      refine ⟨hax, hauth, fun hf => ?_⟩
      exfalso
      obtain ⟨ha1, ha2, ha3, ha4⟩ := hout hf
      rcases ha4 w h with hc | hc <;> rw [hr] at hc <;> cases hc
  | wsClosed w h hr =>
      refine ⟨hax, hauth, fun hf => ?_⟩
      obtain ⟨ha1, ha2, ha3, ha4⟩ := hout hf
      refine ⟨ha1, ha2, ha3, fun w2 hw2 => ?_⟩
      simp only [Option.some.injEq] at hw2
      rw [← hw2]
      exact Or.inr rfl
  | wsError w msg h => exact ⟨hax, hauth, hout⟩
  | wsMessage w m h hr => exact ⟨hax, hauth, hout⟩
  | orphanClosed l1 l2 w h hr => exact ⟨hax, hauth, hout⟩
  | orphanError w msg h => exact ⟨hax, hauth, hout⟩
  | orphanMessage w m h hr => exact ⟨hax, hauth, hout⟩
  | sendStep m =>
      by_cases hc : wsNotOpenReady s.ws = true
      · simp only [websocketSend, hc, if_pos rfl]
        exact ⟨hax, hauth, hout⟩
      · simp only [websocketSend, if_neg hc]
        exact ⟨hax, hauth, hout⟩
  | apiStep method endpoint resp =>
      by_cases hc : s.axiosInit = false
      · simp only [apiCall, hc, if_pos rfl]
        exact ⟨hax, hauth, hout⟩
      · by_cases hm : supportedMethod (jsToLowerCase method) = true
        · simp only [apiCall, if_neg hc, hm, if_pos rfl]
          exact ⟨hax, hauth, hout⟩
        · simp only [apiCall, if_neg hc, if_neg hm]
          exact ⟨hax, hauth, hout⟩

lemma reachableGood {s : Bridge} (h : Reachable initialBridge s) : GoodState s := by
  induction h with
  | refl => exact goodInit
  | tail hab hbc ih => exact goodStep ih hbc

lemma websocketSend_events (s : Bridge) (m : Json) :
    ((websocketSend s m).1).events = s.events := by
  unfold websocketSend
  split <;> rfl

lemma apiCall_events (s : Bridge) (method endpoint : String) (resp : ApiResp) :
    ((apiCall s method endpoint resp).1).events = s.events := by
  unfold apiCall
  split
  · rfl
  · dsimp only
    split <;> rfl

/-- A conforming successful login response used as a concrete scenario. -/
def demoUser : UserInfo :=
  { userID := some "user-1", username := some "alice",
    email := some "alice@example.com",
    ownedCommunities := none, memberCommunities := none }

/-- The response body around demoUser. -/
def demoResponse : LoginResponse :=
  { success := true, message := none, token := some "tok-1", customToken := none,
    user := some demoUser }

/-- State right after authenticateUser issued its POST and suspended. -/
def requestState : Bridge :=
  { initialBridge with
    pendingLogins := initialBridge.pendingLogins + 1,
    httpRequests := initialBridge.httpRequests ++ [loginRequestRecord] }

/-- State after the pending login resolved successfully with demoResponse. -/
def loginState : Bridge :=
  (authenticateUser { requestState with pendingLogins := requestState.pendingLogins - 1 }
    demoResponse).1

lemma loginState_reachable : Reachable initialBridge loginState := by
  have h1 : Step initialBridge requestState := Step.loginRequest initialBridge rfl
  have h2 : Step requestState loginState :=
    Step.loginResolve requestState demoResponse (by decide) (by decide)
  exact Relation.ReflTransGen.tail (Relation.ReflTransGen.single h1) h2

/-- State after the WebSocket opened by the demo login fired its open
callback. -/
def openState : Bridge :=
  { loginState with
    ws := some { userId := "user-1", readyState := ReadyState.opened },
    events := loginState.events ++ [Event.websocketStatus true] }

lemma openState_reachable : Reachable initialBridge openState := by
  have h1 : Step loginState openState :=
    Step.wsOpen loginState { userId := "user-1", readyState := ReadyState.connecting }
      rfl rfl
  exact Relation.ReflTransGen.tail loginState_reachable h1

/-- State after logoutUser ran while the demo login was still pending. -/
def logoutState : Bridge := logoutUser requestState

/-- State after the stale pending login resolved with demoResponse, the
logout having already completed. -/
def staleState : Bridge :=
  (authenticateUser { logoutState with pendingLogins := logoutState.pendingLogins - 1 }
    demoResponse).1

/-- Claim C1: the claim demands that when logout() runs to completion before
a pending login resolves, the SessionRecord stays empty afterwards, the
stale result being discarded.  The code has no such guard: in the
interleaving login request, logout, login resolution, the logout leaves
authState empty but the resolution repopulates it.  This theorem evaluates
the code on that interleaving: the final state is reachable, the logout had
reset authState, yet after the stale login resolves authState is populated
again. -/
theorem stale_login_repopulates_session :
    Reachable initialBridge staleState ∧
    logoutState.authState = initialAuthState ∧
    staleState.authState.isAuthenticated = true ∧
    staleState.authState ≠ initialAuthState := by
  refine ⟨?_, rfl, rfl, by decide⟩
  have h1 : Step initialBridge requestState := Step.loginRequest initialBridge rfl
  have h2 : Step requestState logoutState := Step.logoutStep requestState
  have h3 : Step logoutState staleState :=
    Step.loginResolve logoutState demoResponse (by decide) (by decide)
  exact Relation.ReflTransGen.tail
    (Relation.ReflTransGen.tail (Relation.ReflTransGen.single h1) h2) h3

/-- A login response rejected by the remote with the failure code as its
message. -/
def rejectResponse : LoginResponse :=
  { success := false, message := some "auth/wrong-password", token := none,
    customToken := none, user := none }

/-- Claim C2, counterexample: on a rejected login the code leaves the state
untouched but returns the raw remote message, NOT the text of the fixed
mapping table: for the remote code auth/wrong-password the claim requires
the result message "Incorrect password", while authenticateUser returns
"auth/wrong-password" verbatim; the mapping table lives only in
HomaraAuth.getFirebaseErrorMessage of the website login modal. -/
theorem login_failure_message_not_mapped :
    (authenticateUser initialBridge rejectResponse).1 = initialBridge ∧
    (authenticateUser initialBridge rejectResponse).2.error = some "auth/wrong-password" ∧
    getFirebaseErrorMessage { code := some "auth/wrong-password", message := none } =
      "Incorrect password" ∧
    (authenticateUser initialBridge rejectResponse).2.error ≠ some "Incorrect password" := by
  refine ⟨rfl, rfl, rfl, by decide⟩

/-- Claim C2, amended: every failing login leaves the whole bridge state
(in particular the SessionRecord) exactly as it was and returns a failure:
when the remote rejects (success falsy) the message is the remote message
defaulting to "Login failed"; when the request itself throws (network
failure, non-2xx status) the message is the thrown error.message; when a
success response carries no user object the message is the TypeError text
thrown while reading userID.  The fixed mapping table of known Firebase
failure codes (getFirebaseErrorMessage, with auth/wrong-password mapped to
"Incorrect password") is applied only when the website login modal displays
an error, not to the result of this login. -/
theorem login_failure_leaves_state (s : Bridge) (r : LoginResponse) (msg : String)
    (hf : r.success = false ∨ r.user = none) :
    authenticateUser s r =
      (s, { success := false, authStateOut := none,
            error := some (if r.success = false then jsOrStr r.message "Login failed"
              else "Cannot read properties of undefined (reading userID)") }) ∧
    authenticateUserOutcome s (LoginOutcome.thrown msg) =
      (s, { success := false, authStateOut := none, error := some msg }) ∧
    getFirebaseErrorMessage { code := some "auth/wrong-password", message := none } =
      "Incorrect password" := by
  refine ⟨?_, rfl, rfl⟩
  by_cases hs : r.success = false
  · simp [authenticateUser, hs]
  · have hs2 : r.success = true := by
      revert hs; cases r.success <;> simp
    have hu : r.user = none := hf.resolve_left hs
    simp [authenticateUser, hs2, hu, hs]

theorem login_failure_leaves_state_witness :
    authenticateUser initialBridge rejectResponse =
      (initialBridge,
       { success := false, authStateOut := none, error := some "auth/wrong-password" }) ∧
    authenticateUserOutcome initialBridge (LoginOutcome.thrown "Network Error") =
      (initialBridge,
       { success := false, authStateOut := none, error := some "Network Error" }) :=
  ⟨(login_failure_leaves_state initialBridge rejectResponse "Network Error"
      (Or.inl rfl)).1,
   (login_failure_leaves_state initialBridge rejectResponse "Network Error"
      (Or.inl rfl)).2.1⟩

/-- Bridge state with a main window attached, as after a previous window
creation. -/
def windowBridge : Bridge := { initialBridge with mainWindow := true }

/-- Claim C4: a login whose response reports success replaces the
SessionRecord wholesale with the returned identity, token and group lists,
attaches the token as the default Authorization header, opens exactly one
channel keyed by the returned userId (the prior channel, when present,
being closed first), starts the health-check loop, and publishes a
user-data event with the full SessionRecord snapshot to the attached
presentation surface. -/
theorem login_success_effects (s : Bridge) (r : LoginResponse) (u : UserInfo)
    (hs : r.success = true) (hu : r.user = some u) (hw : s.mainWindow = true)
    (hax : s.axiosInit = true) :
    (authenticateUser s r).2.success = true ∧
    (authenticateUser s r).1.authState = loginAuthState r u ∧
    (authenticateUser s r).1.authHeader =
      some ("Bearer " ++ jsStr (jsOr r.token r.customToken)) ∧
    (authenticateUser s r).1.ws =
      some { userId := jsStr u.userID, readyState := ReadyState.connecting } ∧
    (∀ w0, s.ws = some w0 →
       (authenticateUser s r).1.orphaned = s.orphaned ++ [jsClose w0]) ∧
    (authenticateUser s r).1.monitorOn = true ∧
    (authenticateUser s r).1.events =
      s.events ++ [Event.userData (userDataToSend (loginAuthState r u)),
                   Event.triggerPreload] := by
  have hred : authenticateUser s r =
      (loginSuccessState s r u,
       { success := true, authStateOut := some (loginAuthState r u), error := none }) := by
    simp [authenticateUser, hs, hu]
  rw [hred]
  refine ⟨rfl, rfl, ?_, rfl, ?_, rfl, ?_⟩
  · simp [loginSuccessState, startConnectionMonitoring, connectWebSocket, hax]
  · intro w0 hw0
    simp [loginSuccessState, startConnectionMonitoring, connectWebSocket, hw0]
  · simp [loginSuccessState, startConnectionMonitoring, connectWebSocket, hw]

theorem login_success_effects_witness :
    (authenticateUser windowBridge demoResponse).2.success = true ∧
    (authenticateUser windowBridge demoResponse).1.authState =
      loginAuthState demoResponse demoUser ∧
    (authenticateUser windowBridge demoResponse).1.authHeader =
      some ("Bearer " ++ jsStr (jsOr demoResponse.token demoResponse.customToken)) ∧
    (authenticateUser windowBridge demoResponse).1.ws =
      some { userId := jsStr demoUser.userID, readyState := ReadyState.connecting } ∧
    (∀ w0, windowBridge.ws = some w0 →
       (authenticateUser windowBridge demoResponse).1.orphaned =
         windowBridge.orphaned ++ [jsClose w0]) ∧
    (authenticateUser windowBridge demoResponse).1.monitorOn = true ∧
    (authenticateUser windowBridge demoResponse).1.events =
      windowBridge.events ++
        [Event.userData (userDataToSend (loginAuthState demoResponse demoUser)),
         Event.triggerPreload] :=
  login_success_effects windowBridge demoResponse demoUser rfl rfl rfl rfl

/-- Claim C5: in every reachable state, an authenticated SessionRecord has
both its token and its userId present. -/
theorem auth_implies_token_userId (s : Bridge)
    (hr : Reachable initialBridge s)
    (ha : s.authState.isAuthenticated = true) :
    s.authState.token ≠ none ∧ s.authState.userId ≠ none := by
  obtain ⟨-, hauth, -⟩ := reachableGood hr
  obtain ⟨h1, h2, -⟩ := hauth ha
  exact ⟨truthyStr_ne_none _ h1, truthyStr_ne_none _ h2⟩

theorem auth_implies_token_userId_witness :
    loginState.authState.token ≠ none ∧ loginState.authState.userId ≠ none :=
  auth_implies_token_userId loginState loginState_reachable rfl

/-- Claim C10: an api-call whose method is not get, post, put or delete
(case-insensitively) returns a failure naming the unsupported method,
issues no HTTP request and leaves the whole bridge state (SessionRecord and
channel included) unchanged. -/
theorem api_call_unsupported_method (s : Bridge) (method endpoint : String)
    (resp : ApiResp) (hax : s.axiosInit = true)
    (hm : supportedMethod (jsToLowerCase method) = false) :
    apiCall s method endpoint resp =
      (s, { success := false, data := none,
            error := some ("Unsupported HTTP method: " ++ method), status := none }) := by
  simp [apiCall, hax, hm]

theorem api_call_unsupported_method_witness :
    apiCall initialBridge "PATCH" "/api/users" (ApiResp.ok "") =
      (initialBridge,
       { success := false, data := none,
         error := some "Unsupported HTTP method: PATCH", status := none }) :=
  api_call_unsupported_method initialBridge "PATCH" "/api/users" (ApiResp.ok "")
    rfl (by decide)

/-- Claim C6: websocket-send fails immediately with "WebSocket not
connected" and transmits nothing whenever no socket exists or it is not
OPEN; in every reachable logged-out state that guard fires; and with an
OPEN socket the message is JSON-serialized and transmitted with a bare
success result (no acknowledgement tracking). -/
theorem websocket_send_guard (s : Bridge) (m : Json)
    (hr : Reachable initialBridge s) :
    (wsNotOpenReady s.ws = true →
       websocketSend s m =
         (s, { success := false, error := some "WebSocket not connected" })) ∧
    (s.authState.isAuthenticated = false →
       websocketSend s m =
         (s, { success := false, error := some "WebSocket not connected" })) ∧
    (∀ w, s.ws = some w → w.readyState = ReadyState.opened →
       websocketSend s m =
         ({ s with sentFrames := s.sentFrames ++ [Json.stringify m] },
          { success := true, error := none })) := by
  refine ⟨fun hc => by simp [websocketSend, hc], fun hna => ?_, fun w hw hro => ?_⟩
  · obtain ⟨-, -, hout⟩ := reachableGood hr
    obtain ⟨-, -, -, hq⟩ := hout hna
    have hc : wsNotOpenReady s.ws = true := by
      cases hws : s.ws with
      | none => rfl
      | some w => rcases hq w hws with h | h <;> simp [wsNotOpenReady, h]
    simp [websocketSend, hc]
  · have hc : wsNotOpenReady s.ws = false := by simp [wsNotOpenReady, hw, hro]
    simp [websocketSend, hc]

theorem websocket_send_guard_witness :
    websocketSend initialBridge Json.null =
      (initialBridge, { success := false, error := some "WebSocket not connected" }) :=
  (websocket_send_guard initialBridge Json.null Relation.ReflTransGen.refl).2.1 rfl

/-- Claim C7: a monitor tick that runs while authenticated and finds the
channel absent or not open reopens it keyed by the very userId stored in
the SessionRecord, and the tick leaves the SessionRecord (every field of
authState) unchanged. -/
theorem tick_reconnects_same_user (s : Bridge) (u : String)
    (hr : Reachable initialBridge s)
    (ha : s.authState.isAuthenticated = true)
    (hu : s.authState.userId = some u)
    (hc : wsNotOpenReady s.ws = true) :
    (monitorTick s).authState = s.authState ∧
    (monitorTick s).ws = some { userId := u, readyState := ReadyState.connecting } := by
  obtain ⟨-, hauth, -⟩ := reachableGood hr
  have ht : truthyStr s.authState.userId = true := (hauth ha).2.1
  have h1 : monitorTick s =
      (let s1 := connectWebSocket s (jsStr s.authState.userId)
       if s1.axiosInit = true then
         { s1 with httpRequests := s1.httpRequests ++ [healthCheckRequest] }
       else s1) := by
    simp [monitorTick, ha, hc, ht]
  rw [h1]
  dsimp only
  split <;> refine ⟨rfl, ?_⟩ <;> rw [hu] <;> rfl

theorem tick_reconnects_same_user_witness :
    (monitorTick loginState).authState = loginState.authState ∧
    (monitorTick loginState).ws =
      some { userId := "user-1", readyState := ReadyState.connecting } :=
  tick_reconnects_same_user loginState "user-1" loginState_reachable rfl rfl rfl

/-- Claim C8: logout is idempotent: from any reachable state, running
logoutUser twice gives exactly the state of running it once, and from a
reachable logged-out state logoutUser is a no-op on the whole bridge state
(SessionRecord, channel handle, timer flag, default header and all
logs). -/
theorem logout_idempotent (s : Bridge) (hr : Reachable initialBridge s) :
    logoutUser (logoutUser s) = logoutUser s ∧
    (s.authState.isAuthenticated = false → logoutUser s = s) := by
  obtain ⟨hax, -, hout⟩ := reachableGood hr
  obtain ⟨a, ws, orph, hdr, mon, ax, mw, pend, ev, sf, http⟩ := s
  constructor
  · cases ws with
    | none => cases ax <;> rfl
    | some w =>
        cases w with
        | mk uid rs => cases rs <;> cases ax <;> rfl
  · intro hna
    obtain ⟨hA, hM, hH, hq⟩ := hout hna
    dsimp only at hA hM hH hax
    subst hA
    subst hM
    subst hH
    subst hax
    cases ws with
    | none => rfl
    | some w =>
        cases w with
        | mk uid rs =>
            rcases hq ⟨uid, rs⟩ rfl with h | h <;> dsimp only at h <;> subst h <;> rfl

theorem logout_idempotent_witness :
    logoutUser (logoutUser initialBridge) = logoutUser initialBridge ∧
    logoutUser initialBridge = initialBridge :=
  ⟨(logout_idempotent initialBridge Relation.ReflTransGen.refl).1,
   (logout_idempotent initialBridge Relation.ReflTransGen.refl).2 rfl⟩

/-- Claim C9: in every reachable state, get-user-data returns null exactly
when not authenticated; when authenticated it returns the userDataToSend
snapshot, whose userId, token and email are present, whose username is the
stored one with fallback "Unknown" (never empty) and whose group lists
default to empty lists when no userData is stored, so no partially-null
authenticated snapshot is ever returned. -/
theorem get_user_data_snapshot (s : Bridge) (hr : Reachable initialBridge s) :
    (getUserData s = none ↔ s.authState.isAuthenticated = false) ∧
    (s.authState.isAuthenticated = true →
       getUserData s = some (userDataToSend s.authState) ∧
       (userDataToSend s.authState).userId ≠ none ∧
       (userDataToSend s.authState).token ≠ none ∧
       (userDataToSend s.authState).email ≠ none ∧
       (userDataToSend s.authState).username ≠ "" ∧
       (s.authState.username = none →
          (userDataToSend s.authState).username = "Unknown") ∧
       (s.authState.userData = none →
          (userDataToSend s.authState).ownedCommunities = [] ∧
          (userDataToSend s.authState).memberCommunities = [])) := by
  obtain ⟨-, hauth, -⟩ := reachableGood hr
  constructor
  · constructor
    · intro h
      by_contra hne
      have ha : s.authState.isAuthenticated = true := by
        revert hne; cases s.authState.isAuthenticated <;> simp
      simp [getUserData, ha] at h
    · intro h
      simp [getUserData, h]
  · intro ha
    obtain ⟨h1, h2, h3⟩ := hauth ha
    refine ⟨by simp [getUserData, ha], truthyStr_ne_none _ h2,
      truthyStr_ne_none _ h1, h3, ?_, ?_, ?_⟩
    · cases hu : s.authState.username with
      | none => simp [userDataToSend, jsOrStr, hu]
      | some v =>
          by_cases hv : v = ""
          · simp [userDataToSend, jsOrStr, hu, hv]
          · simp [userDataToSend, jsOrStr, hu, hv]
    · intro hn
      simp [userDataToSend, jsOrStr, hn]
    · intro hn
      simp [userDataToSend, hn]

theorem get_user_data_snapshot_witness :
    getUserData loginState = some (userDataToSend loginState.authState) ∧
    (userDataToSend loginState.authState).userId ≠ none ∧
    (userDataToSend loginState.authState).token ≠ none :=
  ⟨((get_user_data_snapshot loginState loginState_reachable).2 rfl).1,
   ((get_user_data_snapshot loginState loginState_reachable).2 rfl).2.1,
   ((get_user_data_snapshot loginState loginState_reachable).2 rfl).2.2.1⟩

/-- Successor state of the post-logout state in which the close callback of
the socket that logout closed has fired. -/
def closedEventState : Bridge :=
  { logoutUser openState with
    ws := some { userId := "user-1", readyState := ReadyState.closed },
    events := (logoutUser openState).events ++ [Event.websocketStatus false] }

/-- Claim C3, counterexample: from a reachable logged-in state logout
returns without publishing anything, but the close of the channel it
initiated still fires its close callback afterwards, which broadcasts a
channel-status (websocket-status connected:false) event to the windows: an
event is published to a presentation surface after logout() has returned,
contradicting the claim that no further events are published. -/
theorem post_logout_close_event_published :
    openState.authState.isAuthenticated = true ∧
    Reachable initialBridge openState ∧
    (logoutUser openState).events = openState.events ∧
    Step (logoutUser openState) closedEventState ∧
    closedEventState.events = openState.events ++ [Event.websocketStatus false] := by
  refine ⟨rfl, openState_reachable, rfl, ?_, rfl⟩
  exact Step.wsClosed (logoutUser openState)
    { userId := "user-1", readyState := ReadyState.closing } rfl (by decide)

/-- Claim C3, amended: from a reachable logged-in state with no login in
flight, logout synchronously resets the SessionRecord to its empty state,
clears the default auth header, stops the health-check timer and puts the
channel into a closing (never open) state, publishing nothing itself; after
logout returns no health-check tick runs and no user-data, trigger-preload
or channel-status connected event is published, but the closing channel
(or a previously replaced one) can still publish its channel-status
disconnected notification, channel-error notifications and in-flight
channel-message frames. -/
theorem logout_sync_effects (s : Bridge) (hr : Reachable initialBridge s)
    (_ha : s.authState.isAuthenticated = true) (hp : s.pendingLogins = 0) :
    (logoutUser s).authState = initialAuthState ∧
    (logoutUser s).monitorOn = false ∧
    (logoutUser s).authHeader = none ∧
    (∀ w, (logoutUser s).ws = some w →
       w.readyState = ReadyState.closing ∨ w.readyState = ReadyState.closed) ∧
    (logoutUser s).events = s.events ∧
    (∀ t, Step (logoutUser s) t → ∀ e, e ∈ t.events →
       e ∈ s.events ∨ e = Event.websocketStatus false ∨
       (∃ msg, e = Event.websocketError msg) ∨
       ∃ m, e = Event.websocketMessage m) := by
  obtain ⟨hax, -, -⟩ := reachableGood hr
  have hws : ∀ w, (logoutUser s).ws = some w →
      w.readyState = ReadyState.closing ∨ w.readyState = ReadyState.closed := by
    intro w hw
    simp only [logoutUser, stopConnectionMonitoring] at hw
    cases hws2 : s.ws with
    | none => rw [hws2] at hw; cases hw
    | some w0 =>
        rw [hws2] at hw
        simp only [Option.some.injEq] at hw
        rw [← hw]
        exact jsClose_quiescent w0
  refine ⟨rfl, rfl, by simp [logoutUser, stopConnectionMonitoring, hax], hws, rfl, ?_⟩
  intro t hstep e he
  cases hstep with
  | loginRequest h => exact Or.inl he
  | loginRequestNoClient h => exact Or.inl he
  | loginResolve r hw2 hp2 => exact absurd hp hp2
  | loginThrow msg hp2 => exact absurd hp hp2
  | logoutStep => exact Or.inl he
  | tickStep h => exact absurd h (by simp [logoutUser, stopConnectionMonitoring])
  | wsOpen w h hr2 =>
      rcases hws w h with hq | hq <;> rw [hr2] at hq <;> cases hq
  | wsClosed w h hr2 =>
      rcases List.mem_append.mp he with h1 | h1
      · exact Or.inl h1
      · simp only [List.mem_singleton] at h1
        exact Or.inr (Or.inl h1)
  | wsError w msg h =>
      rcases List.mem_append.mp he with h1 | h1
      · exact Or.inl h1
      · simp only [List.mem_singleton] at h1
        exact Or.inr (Or.inr (Or.inl ⟨msg, h1⟩))
  | wsMessage w m h hr2 =>
      rcases List.mem_append.mp he with h1 | h1
      · exact Or.inl h1
      · simp only [List.mem_singleton] at h1
        exact Or.inr (Or.inr (Or.inr ⟨m, h1⟩))
  | orphanClosed l1 l2 w h hr2 =>
      rcases List.mem_append.mp he with h1 | h1
      · exact Or.inl h1
      · simp only [List.mem_singleton] at h1
        exact Or.inr (Or.inl h1)
  | orphanError w msg h =>
      rcases List.mem_append.mp he with h1 | h1
      · exact Or.inl h1
      · simp only [List.mem_singleton] at h1
        exact Or.inr (Or.inr (Or.inl ⟨msg, h1⟩))
  | orphanMessage w m h hr2 =>
      rcases List.mem_append.mp he with h1 | h1
      · exact Or.inl h1
      · simp only [List.mem_singleton] at h1
        exact Or.inr (Or.inr (Or.inr ⟨m, h1⟩))
  | sendStep m =>
      rw [websocketSend_events] at he
      exact Or.inl he
  | apiStep method endpoint resp =>
      rw [apiCall_events] at he
      exact Or.inl he

theorem logout_sync_effects_witness :
    (logoutUser openState).authState = initialAuthState ∧
    (logoutUser openState).monitorOn = false ∧
    (logoutUser openState).authHeader = none :=
  ⟨(logout_sync_effects openState openState_reachable rfl rfl).1,
   (logout_sync_effects openState openState_reachable rfl rfl).2.1,
   (logout_sync_effects openState openState_reachable rfl rfl).2.2.1⟩

end Homara
